import Mathlib

/-!
Shallow embedding of the user registration and credential lifecycle of the
`information-systems` backend (src/backend/routes.js, src/backend/db.js).

The `users` table (db.js lines 41-51) is modelled as a list of `User` rows;
each Express route handler that the claims reference becomes a pure function
from the store (plus request parameters and the outcomes of the external
collaborators: the generated random value, the e-mail transporter, bcrypt)
to an HTTP-level result together with the resulting store.
-/

namespace InfoSys

/-- A row of the `users` table (db.js lines 41-51).  `passcode` is the only
nullable column among those the handlers read, hence `Option String`. -/
structure User where
  id : Nat
  name : String
  regNumber : String
  email : String
  passcode : Option String
  role : String
  status : String
deriving DecidableEq, Repr

/-- The `users` table. -/
abbrev Store := List User

/-- `SELECT * FROM users WHERE regNumber = ?` (routes.js line 386):
SQLite compares TEXT with the default BINARY collation, i.e. exact,
case-sensitive string equality. -/
def findByRegNumber (db : Store) (reg : String) : Option User :=
  db.find? (fun u => u.regNumber == reg)

/-- `SELECT * FROM users WHERE id = ? AND status = 'pending'`
(routes.js lines 448-449). -/
def findPendingById (db : Store) (uid : Nat) : Option User :=
  db.find? (fun u => u.id == uid && u.status == "pending")

/-- `SELECT * FROM users WHERE regNumber = ? AND status = 'confirmed'`
(routes.js lines 507-508). -/
def findConfirmedByRegNumber (db : Store) (reg : String) : Option User :=
  db.find? (fun u => u.regNumber == reg && u.status == "confirmed")

/-- `SELECT * FROM users WHERE id = ?` (routes.js line 602). -/
def findById (db : Store) (uid : Nat) : Option User :=
  db.find? (fun u => u.id == uid)

/-- `INSERT INTO users ...` honouring the `UNIQUE` constraints on
`regNumber` and `email` (db.js lines 44-45); the constraint comparison is
the BINARY collation, i.e. exact string equality.  `none` models the
constraint violation (the sqlite callback receives an error). -/
def insertUser (db : Store) (u : User) : Option Store :=
  if db.any (fun v => v.regNumber == u.regNumber || v.email == u.email) then
    none
  else
    some (db ++ [u])

/-- `UPDATE users SET status = ?, passcode = ? WHERE id = ?`
(routes.js lines 463-464).  Note the `WHERE` clause tests only `id`;
the update is not conditioned on the current status. -/
def setStatusPasscode (db : Store) (uid : Nat) (st pc : String) : Store :=
  db.map (fun u => if u.id == uid then { u with status := st, passcode := some pc } else u)

/-- `UPDATE users SET passcode = ? WHERE id = ?` (routes.js lines 613-614). -/
def setPasscode (db : Store) (uid : Nat) (pc : String) : Store :=
  db.map (fun u => if u.id == uid then { u with passcode := some pc } else u)

/-! ## generatePasscode (routes.js lines 53-56)

`Math.random().toString(36).substring(2, 8).toUpperCase()`.

`Math.random()` returns a double in `[0, 1)`; `toString(36)` renders it as
`"0"` when the value is `0` and otherwise as `"0."` followed by its base-36
fractional digits (digit characters `0-9` then `a-z`).  We embed the random
draw by its list of fractional base-36 digits.  `substring(2, 8)` keeps at
most the first six fractional digit characters, and `toUpperCase()` maps
ASCII lower-case letters to upper case. -/

/-- The base-36 digit characters emitted by `Number.prototype.toString(36)`:
`0-9` for digits below ten, `a-z` for the rest. -/
def base36Char (d : Nat) : Char :=
  if d < 10 then Char.ofNat (48 + d) else Char.ofNat (97 + (d - 10))

/-- `String.prototype.toUpperCase()` on the ASCII range. -/
def asciiUpper (c : Char) : Char :=
  if 97 ≤ c.toNat ∧ c.toNat ≤ 122 then Char.ofNat (c.toNat - 32) else c

/-- `Math.random().toString(36)` for a draw whose fractional base-36 digits
are `digits` (empty for the draw `0`, which renders as `"0"`). -/
def randToString36 (digits : List Nat) : String :=
  if digits = [] then "0" else "0." ++ String.mk (digits.map base36Char)

/-- JavaScript `String.prototype.substring(a, b)` for `a ≤ b`. -/
def jsSubstring (s : String) (a b : Nat) : String :=
  String.mk ((s.data.drop a).take (b - a))

/-- `generatePasscode` (routes.js lines 54-56), as a function of the random
draw's fractional base-36 digits. -/
def generatePasscode (digits : List Nat) : String :=
  String.mk ((jsSubstring (randToString36 digits) 2 8).data.map asciiUpper)

/-! ## Route handlers -/

/-- Outcome of `POST /signup` (routes.js lines 374-410). -/
inductive SignUpResult where
  /-- 400: a field is missing/empty. -/
  | badRequest (msg : String)
  /-- 409: duplicate registration number. -/
  | conflict (msg : String)
  /-- 500: unexpected store failure (e.g. UNIQUE violation at insert). -/
  | serverError (msg : String)
  /-- 201: pending registration created. -/
  | created (msg : String)
deriving DecidableEq, Repr

/-- The row `INSERT INTO users (name, regNumber, email, status) VALUES
(?, ?, ?, 'pending')` creates (routes.js lines 397-403): fields verbatim, no
passcode, the schema defaults `role = 'student'`. -/
def pendingRow (newId : Nat) (name regNumber email : String) : User :=
  { id := newId, name := name, regNumber := regNumber, email := email,
    passcode := none, role := "student", status := "pending" }

/-- `POST /signup` (routes.js lines 374-410).  An absent JSON field and an
empty string are both falsy, so the guard is emptiness of each field; the
duplicate pre-check queries `regNumber` only; the insert writes the fields
verbatim with `status = 'pending'` and no passcode. -/
def signUp (db : Store) (newId : Nat) (name regNumber email : String) :
    SignUpResult × Store :=
  if name = "" ∨ regNumber = "" ∨ email = "" then
    (.badRequest "All fields are required", db)
  else
    match findByRegNumber db regNumber with
    | some _ => (.conflict "Registration number already exists", db)
    | none =>
        match insertUser db (pendingRow newId name regNumber email) with
        | none => (.serverError "Internal server error", db)
        | some db' =>
            (.created "Registration submitted successfully. Please wait for admin approval.",
             db')

/-- Outcome of `POST /confirm-registration/:id` (routes.js lines 436-493). -/
inductive ApproveResult where
  /-- 404: no pending registration with that id. -/
  | notFound (msg : String)
  /-- 500: the catch-all handler (in particular when `sendMail` throws). -/
  | serverError (msg : String)
  /-- 200: confirmed and passcode e-mailed. -/
  | ok (msg : String)
deriving DecidableEq, Repr

/-- `POST /confirm-registration/:id` (routes.js lines 436-493), parametrised
by the passcode the random generator produced (`pc`) and by whether the
transporter delivers the e-mail (`emailOk`).  The handler first selects the
pending row, 404s when there is none, then updates status and passcode, then
awaits `sendMail`; a `sendMail` failure lands in the catch block, which
returns 500 without undoing the already-executed update.  The plaintext `pc`
is both stored and interpolated into the e-mail body. -/
def approve (db : Store) (uid : Nat) (pc : String) (emailOk : Bool) :
    ApproveResult × Store :=
  match findPendingById db uid with
  | none => (.notFound "Pending registration not found", db)
  | some _ =>
      let db' := setStatusPasscode db uid "confirmed" pc
      if emailOk then
        (.ok "Registration confirmed and passcode sent via email", db')
      else
        (.serverError "Internal server error", db')

/-- Outcome of `POST /login` (routes.js lines 496-538). -/
inductive LoginResult where
  /-- 400: missing field. -/
  | badRequest (msg : String)
  /-- 401: uniform credential failure. -/
  | unauthorized (msg : String)
  /-- 200: token issued for this user. -/
  | success (uid : Nat) (name regNumber email : String)
deriving DecidableEq, Repr

/-- `POST /login` (routes.js lines 496-538).  Looks up
`regNumber AND status = 'confirmed'`; both an absent row and a passcode
mismatch take the same `!user || user.passcode !== passcode` branch with the
same 401 body. -/
def login (db : Store) (regNumber passcode : String) : LoginResult :=
  if regNumber = "" ∨ passcode = "" then
    .badRequest "Registration number and passcode are required"
  else
    match findConfirmedByRegNumber db regNumber with
    | none => .unauthorized "Invalid credentials"
    | some u =>
        if u.passcode = some passcode then
          .success u.id u.name u.regNumber u.email
        else
          .unauthorized "Invalid credentials"

/-- Outcome of `POST /change-password` (routes.js lines 589-648). -/
inductive ChangeResult where
  /-- 400: missing field. -/
  | badRequest (msg : String)
  /-- 401: current secret did not verify. -/
  | unauthorized (msg : String)
  /-- 200. -/
  | ok (msg : String)
deriving DecidableEq, Repr

/-- The student branch of `POST /change-password` (routes.js lines 599-618),
for an authenticated student token carrying `uid`.  `user.passcode !==
currentPassword` is strict string comparison, false also when the stored
passcode is NULL. -/
def changePasscode (db : Store) (uid : Nat) (cur new : String) :
    ChangeResult × Store :=
  if cur = "" ∨ new = "" then
    (.badRequest "Current and new password are required", db)
  else
    match findById db uid with
    | none => (.unauthorized "Current passcode is incorrect", db)
    | some u =>
        if u.passcode = some cur then
          (.ok "Password changed successfully", setPasscode db uid new)
        else
          (.unauthorized "Current passcode is incorrect", db)

/-! ## Database initialization (db.js) -/

/-- The default admin row inserted by `seedDefaultData` (db.js lines
131-158), parametrised by the bcrypt hash of `'admin123'`.  Note it lives in
the `users` table with `status = 'active'`. -/
def seedAdmin (hash : String) : User :=
  { id := 1, name := "System Administrator", regNumber := "24/is/ad/001",
    email := "admin@informationsystems.uniuyo.edu.ng",
    passcode := some hash, role := "admin", status := "active" }

/-- The names of the tables created by `createTables` (db.js lines 37-119):
its `queries` array holds exactly five `CREATE TABLE IF NOT EXISTS`
statements, for these tables and no others. -/
def createdTables : List String :=
  ["users", "materials", "events", "news", "achievements"]

/-- Outcome of `POST /admin/login` (routes.js lines 541-586). -/
inductive AdminLoginResult where
  /-- 400: missing field. -/
  | badRequest (msg : String)
  /-- 401. -/
  | unauthorized (msg : String)
  /-- 500: the catch-all handler (in particular a failing query). -/
  | serverError (msg : String)
  /-- 200: admin token issued. -/
  | success (uid : Nat) (username : String)
deriving DecidableEq, Repr

/-- A row of the `admins` table that `POST /admin/login` queries. -/
structure AdminRow where
  id : Nat
  username : String
  password : String
deriving DecidableEq, Repr

/-- `POST /admin/login` (routes.js lines 541-586), parametrised by the list
of existing tables, the contents an `admins` table would have, and the
bcrypt comparison oracle.  `SELECT * FROM admins WHERE username = ?` against
a database whose schema lacks an `admins` table makes sqlite report an
error, the promise rejects, and the catch block returns 500. -/
def adminLogin (tables : List String) (admins : List AdminRow)
    (bcryptOk : String → String → Bool) (username password : String) :
    AdminLoginResult :=
  if username = "" ∨ password = "" then
    .badRequest "Username and password are required"
  else if "admins" ∈ tables then
    match admins.find? (fun a => a.username == username) with
    | none => .unauthorized "Invalid credentials"
    | some a =>
        if bcryptOk password a.password then .success a.id a.username
        else .unauthorized "Invalid credentials"
  else
    .serverError "Internal server error"

/-! ## The approve race (routes.js lines 443-468)

`approve` is a SELECT (lines 447-453) followed by an UPDATE (lines 462-468)
whose `WHERE` clause tests only `id`.  Two concurrent handlers for the same
id interleave over the shared store; `approveRace` is the interleaving in
which both SELECTs execute before either UPDATE (both e-mails delivered). -/

/-- The interleaving SELECT₁; SELECT₂; UPDATE₁; UPDATE₂ of two concurrent
`POST /confirm-registration/:id` handlers for the same `uid`, where handler
`i` draws passcode `pcᵢ` and both e-mails succeed.  Both SELECTs read the
same initial store, so they agree; when the row is pending both handlers
pass the 404 check and both run their unconditional UPDATE. -/
def approveRace (db : Store) (uid : Nat) (pc₁ pc₂ : String) :
    ApproveResult × ApproveResult × Store :=
  match findPendingById db uid with
  | none =>
      (.notFound "Pending registration not found",
       .notFound "Pending registration not found", db)
  | some _ =>
      (.ok "Registration confirmed and passcode sent via email",
       .ok "Registration confirmed and passcode sent via email",
       setStatusPasscode (setStatusPasscode db uid "confirmed" pc₁) uid "confirmed" pc₂)

/-- The lifecycle invariant of the spec: a row's secret is NULL exactly when
the row is pending. -/
def Inv (db : Store) : Prop :=
  ∀ u ∈ db, u.passcode = none ↔ u.status = "pending"

instance (db : Store) : Decidable (Inv db) := by
  unfold Inv; infer_instance

/-- A passcode character after `toUpperCase`: an ASCII digit or an ASCII
upper-case letter. -/
def isDigitOrUpper (c : Char) : Bool :=
  (48 ≤ c.toNat && c.toNat ≤ 57) || (65 ≤ c.toNat && c.toNat ≤ 90)

/-! ## Sample rows used to instantiate the theorems on concrete stores -/

/-- A sample pending registration, as `POST /signup` inserts it. -/
def janePending : User :=
  { id := 1, name := "Jane Doe", regNumber := "24/is/co/346",
    email := "jane@example.com", passcode := none, role := "student",
    status := "pending" }

/-- The row `janePending` becomes after a successful approval that drew the
passcode `"K9XQ2F"`. -/
def janeConfirmed : User :=
  { janePending with status := "confirmed", passcode := some "K9XQ2F" }

/-- A sample already-confirmed row holding the passcode `"ABC123"`. -/
def bobConfirmed : User :=
  { id := 2, name := "Bob Roe", regNumber := "23/is/co/128",
    email := "bob@example.com", passcode := some "ABC123", role := "student",
    status := "confirmed" }

/-! ## Helper lemmas -/

/-- `generatePasscode` in closed form: the first six fractional base-36
digit characters, upper-cased. -/
theorem generatePasscode_eq (digits : List Nat) :
    generatePasscode digits =
      String.mk (((digits.map base36Char).take 6).map asciiUpper) := by
  cases digits with
  | nil => rfl
  | cons d ds => rfl

/-- Each base-36 digit character upper-cases to a digit or an upper-case
letter. -/
theorem isDigitOrUpper_base36 : ∀ d : Nat, d < 36 →
    isDigitOrUpper (asciiUpper (base36Char d)) = true := by
  decide

/-- If no row at all carries a registration number, then in particular no
confirmed row does. -/
theorem findConfirmed_none_of_find_none (db : Store) (r : String)
    (h : findByRegNumber db r = none) :
    findConfirmedByRegNumber db r = none := by
  unfold findByRegNumber at h
  unfold findConfirmedByRegNumber
  rw [List.find?_eq_none] at h ⊢
  intro u hu
  simp only [Bool.and_eq_true, beq_iff_eq, not_and]
  intro hr
  exact absurd (by simp [hr]) (h u hu)

/-! ## Claim C2 -/

/-- Claim C2, counterexample: the claim says every generated passcode has a
fixed length between 8 and 10 characters, but for the draw with fractional
base-36 digits `[10,11,12,13,14,15,16,17]` the generator returns `"ABCDEF"`,
whose length 6 lies outside `[8, 10]` (`substring(2, 8)` keeps at most six
characters). -/
theorem c2_counterexample :
    ¬ (8 ≤ (generatePasscode [10, 11, 12, 13, 14, 15, 16, 17]).length ∧
       (generatePasscode [10, 11, 12, 13, 14, 15, 16, 17]).length ≤ 10) := by
  decide

/-- Claim C2 (amended): every passcode returned by `generatePasscode` has
length at most 6 (never 8-10), and each character is an ASCII digit or
upper-case letter — lower-case letters never occur, the source is
`Math.random`, not a cryptographically secure generator. -/
theorem generatePasscode_short_upper_alnum (digits : List Nat)
    (h : ∀ d ∈ digits, d < 36) :
    (generatePasscode digits).length ≤ 6 ∧
    (generatePasscode digits).data.all isDigitOrUpper = true := by
  rw [generatePasscode_eq]
  constructor
  · show (((digits.map base36Char).take 6).map asciiUpper).length ≤ 6
    rw [List.length_map]
    exact le_trans (List.length_take_le 6 _) (le_refl 6)
  · show (((digits.map base36Char).take 6).map asciiUpper).all isDigitOrUpper = true
    rw [List.all_eq_true]
    intro c hc
    obtain ⟨b, hb, rfl⟩ := List.mem_map.1 hc
    have hb' : b ∈ digits.map base36Char := List.mem_of_mem_take hb
    obtain ⟨d, hd, rfl⟩ := List.mem_map.1 hb'
    exact isDigitOrUpper_base36 d (h d hd)

/-- Claim C2, witness for the amended theorem at a concrete draw. -/
theorem c2_amended_witness :
    (generatePasscode [10, 11, 12, 13, 14, 15, 16, 17]).length ≤ 6 ∧
    (generatePasscode [10, 11, 12, 13, 14, 15, 16, 17]).data.all isDigitOrUpper = true :=
  generatePasscode_short_upper_alnum [10, 11, 12, 13, 14, 15, 16, 17] (by decide)

/-! ## Claim C3 -/

/-- Claim C3, counterexample: the claim says `"24/abc/1"` is rejected with
`InvalidInput` before any store access, but `POST /signup` accepts it — the
handler checks only that the three fields are non-empty, performs no pattern
or e-mail-shape validation, and writes the row to the store. -/
theorem c3_counterexample :
    signUp [] 1 "John Doe" "24/abc/1" "john@example.com" =
      (SignUpResult.created
        "Registration submitted successfully. Please wait for admin approval.",
       [{ id := 1, name := "John Doe", regNumber := "24/abc/1",
          email := "john@example.com", passcode := none, role := "student",
          status := "pending" }]) := by
  decide

/-- Claim C3 (amended): `signUp` fails with the 400 `InvalidInput` response
(leaving the store untouched) exactly when one of the three fields is empty;
no pattern check on `regNumber` and no e-mail-shape check on `email` is
performed, so malformed non-empty inputs such as `"24/abc/1"` proceed to the
store. -/
theorem signUp_validates_only_nonempty (db : Store) (newId : Nat)
    (name regNumber email : String) :
    signUp db newId name regNumber email = (.badRequest "All fields are required", db) ↔
      (name = "" ∨ regNumber = "" ∨ email = "") := by
  unfold signUp
  by_cases hcond : name = "" ∨ regNumber = "" ∨ email = ""
  · simp [hcond]
  · rw [if_neg hcond]
    simp only [hcond, iff_false]
    intro hcontra
    cases hfind : findByRegNumber db regNumber with
    | some u => rw [hfind] at hcontra; exact SignUpResult.noConfusion (congrArg Prod.fst hcontra)
    | none =>
        rw [hfind] at hcontra
        cases hins : insertUser db (pendingRow newId name regNumber email) with
        | none => rw [hins] at hcontra; exact SignUpResult.noConfusion (congrArg Prod.fst hcontra)
        | some db' => rw [hins] at hcontra; exact SignUpResult.noConfusion (congrArg Prod.fst hcontra)

/-! ## Claim C4 -/

/-- Claim C4, counterexample: the claim says a second `signUp` whose
`externalId` differs only in letter case fails with `AccountAlreadyExists`,
but after signing up `"24/is/co/346"` a second signup as `"24/IS/CO/346"`
succeeds with 201 — neither the duplicate pre-check nor the UNIQUE
constraint compares case-insensitively, and nothing is lower-cased. -/
theorem c4_counterexample :
    (signUp (signUp [] 1 "Jane Doe" "24/is/co/346" "jane@example.com").2
        2 "Jane Doe" "24/IS/CO/346" "jane.b@example.com").1 =
      SignUpResult.created
        "Registration submitted successfully. Please wait for admin approval." := by
  decide

/-- Claim C4 (amended): `signUp` performs no case normalization: the
duplicate check fires only on an exactly equal (case-sensitive) registration
number, and a successful signup stores `regNumber` and `email` verbatim. -/
theorem signUp_case_sensitive_verbatim (db : Store) (newId : Nat)
    (name regNumber email : String)
    (hn : name ≠ "") (hr : regNumber ≠ "") (he : email ≠ "") :
    ((∃ u, findByRegNumber db regNumber = some u) →
      signUp db newId name regNumber email =
        (.conflict "Registration number already exists", db)) ∧
    (findByRegNumber db regNumber = none →
      (∀ v ∈ db, v.email ≠ email) →
      signUp db newId name regNumber email =
        (.created "Registration submitted successfully. Please wait for admin approval.",
         db ++ [pendingRow newId name regNumber email])) := by
  have hcond : ¬ (name = "" ∨ regNumber = "" ∨ email = "") := by
    push_neg
    exact ⟨hn, hr, he⟩
  constructor
  · rintro ⟨u, hu⟩
    unfold signUp
    rw [if_neg hcond, hu]
  · intro hfind hemail
    unfold signUp
    rw [if_neg hcond, hfind]
    have hins : insertUser db (pendingRow newId name regNumber email) =
        some (db ++ [pendingRow newId name regNumber email]) := by
      unfold insertUser
      rw [if_neg]
      simp only [List.any_eq_true, Bool.or_eq_true, beq_iff_eq, not_exists, not_and, not_or]
      intro v hv
      unfold findByRegNumber at hfind
      rw [List.find?_eq_none] at hfind
      have hregv : ¬ (v.regNumber == regNumber) = true := hfind v hv
      constructor
      · simpa [pendingRow] using hregv
      · simpa [pendingRow] using hemail v hv
    rw [hins]

/-- Claim C4, witness for the amended theorem: with `janePending` already
stored, an exact-case duplicate signup is rejected with 409. -/
theorem c4_amended_witness :
    ((∃ u, findByRegNumber [janePending] "24/is/co/346" = some u) →
      signUp [janePending] 2 "Jane Doe" "24/is/co/346" "other@example.com" =
        (.conflict "Registration number already exists", [janePending])) ∧
    (findByRegNumber [janePending] "24/is/co/346" = none →
      (∀ v ∈ [janePending], v.email ≠ "other@example.com") →
      signUp [janePending] 2 "Jane Doe" "24/is/co/346" "other@example.com" =
        (.created "Registration submitted successfully. Please wait for admin approval.",
         [janePending] ++ [pendingRow 2 "Jane Doe" "24/is/co/346" "other@example.com"])) :=
  signUp_case_sensitive_verbatim [janePending] 2 "Jane Doe" "24/is/co/346"
    "other@example.com" (by decide) (by decide) (by decide)

/-! ## Claim C1 -/

/-- Claim C1, counterexample: the claim says the stored secret field never
equals the plaintext passcode handed to the notification collaborator, but
approving `janePending` with the drawn passcode `"K9XQ2F"` stores exactly
`passcode = "K9XQ2F"` — the very plaintext interpolated into the e-mail — so
nothing is hashed before storage. -/
theorem c1_counterexample :
    (approve [janePending] 1 "K9XQ2F" true).2 = [janeConfirmed] ∧
    janeConfirmed.passcode = some "K9XQ2F" := by
  decide

/-- Claim C1 (amended): `approve` stores the plaintext passcode itself,
unhashed: after approval of a pending row, every row with the approved id
holds exactly the plaintext passcode that was handed to the e-mail
transporter, and `POST /login` later compares that stored plaintext by
string equality. -/
theorem approve_stores_plaintext (db : Store) (uid : Nat) (pc : String)
    (emailOk : Bool) (u : User) (hu : findPendingById db uid = some u) :
    ∀ v ∈ (approve db uid pc emailOk).2, v.id = uid → v.passcode = some pc := by
  intro v hv hvid
  have hstore : (approve db uid pc emailOk).2 = setStatusPasscode db uid "confirmed" pc := by
    unfold approve
    rw [hu]
    cases emailOk <;> rfl
  rw [hstore] at hv
  unfold setStatusPasscode at hv
  obtain ⟨w, hw, rfl⟩ := List.mem_map.1 hv
  by_cases hid : w.id = uid
  · simp [hid]
  · rw [if_neg (by simpa using hid)] at hvid
    exact absurd hvid hid

/-- Claim C1, witness: the amended theorem instantiated on `janePending`. -/
theorem c1_amended_witness : janeConfirmed.passcode = some "K9XQ2F" :=
  approve_stores_plaintext [janePending] 1 "K9XQ2F" true janePending (by decide)
    janeConfirmed (by decide) (by decide)

/-! ## Claim C5 -/

/-- Claim C5 (confirmed): for an id that has no row, or whose row is not in
state `pending`, `approve` returns the 404 `NotFound` response and the store
after the call equals the store before it. -/
theorem approve_notFound_no_mutation (db : Store) (uid : Nat) (pc : String)
    (emailOk : Bool) (h : ∀ u ∈ db, u.id = uid → u.status ≠ "pending") :
    approve db uid pc emailOk = (.notFound "Pending registration not found", db) := by
  have hfind : findPendingById db uid = none := by
    unfold findPendingById
    rw [List.find?_eq_none]
    intro u hu
    simp only [Bool.and_eq_true, beq_iff_eq, not_and]
    intro hid
    simpa using h u hu hid
  unfold approve
  rw [hfind]

/-- Claim C5, witness: approving id 2 when the store holds only the
already-confirmed `bobConfirmed` row fails with 404 and mutates nothing. -/
theorem c5_witness :
    approve [bobConfirmed] 2 "ZZZ999" true =
      (.notFound "Pending registration not found", [bobConfirmed]) :=
  approve_notFound_no_mutation [bobConfirmed] 2 "ZZZ999" true (by decide)

/-! ## Claim C6 -/

/-- Claim C6, counterexample: the claim says that when the e-mail fails,
`approve` still reports success; but with the transporter failing the
handler's catch block answers 500 `Internal server error` — while the store
does keep the confirmed row with its passcode (the flip is indeed not rolled
back). -/
theorem c6_counterexample :
    approve [janePending] 1 "K9XQ2F" false =
      (ApproveResult.serverError "Internal server error", [janeConfirmed]) := by
  decide

/-- Claim C6 (amended): when the e-mail delivery fails after a successful
state flip, the flip is not rolled back — the resulting store is exactly the
updated one with `status = 'confirmed'` and the passcode set — but `approve`
reports the generic 500 internal error to its caller instead of success. -/
theorem approve_email_failure_no_rollback (db : Store) (uid : Nat) (pc : String)
    (u : User) (hu : findPendingById db uid = some u) :
    approve db uid pc false =
      (.serverError "Internal server error", setStatusPasscode db uid "confirmed" pc) := by
  unfold approve
  rw [hu]
  rfl

/-- Claim C6, witness: the amended theorem on the concrete pending store. -/
theorem c6_amended_witness :
    approve [janePending] 1 "K9XQ2F" false =
      (.serverError "Internal server error",
       setStatusPasscode [janePending] 1 "confirmed" "K9XQ2F") :=
  approve_email_failure_no_rollback [janePending] 1 "K9XQ2F" janePending (by decide)

/-! ## Claim C7 -/

/-- Claim C7 (confirmed): for any store, a login against a confirmed account
with a wrong passcode, a login with a registration number held by no row at
all, and a login with a registration number whose rows are all still
pending, produce the literally identical 401 response
`Invalid credentials` — no observable distinction among the three causes. -/
theorem login_uniform_failure (db : Store) (r₁ p₁ r₂ p₂ r₃ p₃ : String)
    (hr₁ : r₁ ≠ "") (hp₁ : p₁ ≠ "") (hr₂ : r₂ ≠ "") (hp₂ : p₂ ≠ "")
    (hr₃ : r₃ ≠ "") (hp₃ : p₃ ≠ "")
    (u₁ : User) (hu₁ : findConfirmedByRegNumber db r₁ = some u₁)
    (hwrong : u₁.passcode ≠ some p₁)
    (hnone : findByRegNumber db r₂ = none)
    (_hex : ∃ u ∈ db, u.regNumber = r₃ ∧ u.status = "pending")
    (hpend : ∀ u ∈ db, u.regNumber = r₃ → u.status = "pending") :
    login db r₁ p₁ = .unauthorized "Invalid credentials" ∧
    login db r₂ p₂ = .unauthorized "Invalid credentials" ∧
    login db r₃ p₃ = .unauthorized "Invalid credentials" := by
  refine ⟨?_, ?_, ?_⟩
  · unfold login
    rw [if_neg (by push_neg; exact ⟨hr₁, hp₁⟩), hu₁]
    simp [hwrong]
  · unfold login
    rw [if_neg (by push_neg; exact ⟨hr₂, hp₂⟩),
        findConfirmed_none_of_find_none db r₂ hnone]
  · have hfind : findConfirmedByRegNumber db r₃ = none := by
      unfold findConfirmedByRegNumber
      rw [List.find?_eq_none]
      intro u hu
      simp only [Bool.and_eq_true, beq_iff_eq, not_and]
      intro hreg
      have := hpend u hu hreg
      simp [this]
    unfold login
    rw [if_neg (by push_neg; exact ⟨hr₃, hp₃⟩), hfind]

/-- Claim C7, witness: on the store `[bobConfirmed, janePending]` the three
failure causes — wrong passcode for Bob, unknown registration number, and
Jane still pending — all yield the same 401 body. -/
theorem c7_witness :
    login [bobConfirmed, janePending] "23/is/co/128" "WRONG1" =
      .unauthorized "Invalid credentials" ∧
    login [bobConfirmed, janePending] "99/zz/zz/999" "ABC123" =
      .unauthorized "Invalid credentials" ∧
    login [bobConfirmed, janePending] "24/is/co/346" "ABC123" =
      .unauthorized "Invalid credentials" :=
  login_uniform_failure [bobConfirmed, janePending]
    "23/is/co/128" "WRONG1" "99/zz/zz/999" "ABC123" "24/is/co/346" "ABC123"
    (by decide) (by decide) (by decide) (by decide) (by decide) (by decide)
    bobConfirmed (by decide) (by decide) (by decide)
    ⟨janePending, by decide⟩ (by decide)

/-! ## Claim C8 -/

/-- The UPDATE of `approve` keeps the invariant: it sets the non-pending
status and the non-null passcode together on every row it touches. -/
theorem inv_setStatusPasscode (db : Store) (uid : Nat) (pc : String)
    (hInv : Inv db) : Inv (setStatusPasscode db uid "confirmed" pc) := by
  intro v hv
  unfold setStatusPasscode at hv
  obtain ⟨w, hw, rfl⟩ := List.mem_map.1 hv
  by_cases hid : w.id = uid
  · simp [hid]
  · rw [if_neg (by simpa using hid)]
    exact hInv w hw

/-- Claim C8 (confirmed): "a row's secret is NULL iff its state is pending"
holds for the seeded admin row and is preserved by every lifecycle
operation: `signUp` inserts pending rows with a NULL passcode, `approve`
sets status and passcode in one UPDATE, and the student branch of
`POST /change-password` only ever rewrites the passcode of a row that
already held a non-NULL one (hence, by the invariant, a non-pending row);
ids are unique by the PRIMARY KEY constraint. -/
theorem secretHash_null_iff_pending :
    (∀ hash, Inv [seedAdmin hash]) ∧
    (∀ db newId name regNumber email, Inv db →
      Inv (signUp db newId name regNumber email).2) ∧
    (∀ db uid pc emailOk, Inv db → Inv (approve db uid pc emailOk).2) ∧
    (∀ db uid cur new, Inv db → (db.map User.id).Nodup →
      Inv (changePasscode db uid cur new).2) := by
  refine ⟨?_, ?_, ?_, ?_⟩
  · intro hash u hu
    simp only [List.mem_singleton] at hu
    subst hu
    simp [seedAdmin]
  · intro db newId name regNumber email hInv
    unfold signUp
    split
    · exact hInv
    · split
      · exact hInv
      · split
        · exact hInv
        · rename_i db' hins
          unfold insertUser at hins
          split at hins
          · exact absurd hins (by simp)
          · obtain rfl : db ++ [pendingRow newId name regNumber email] = db' :=
              Option.some.inj hins
            intro u hu
            rcases List.mem_append.1 hu with hmem | hmem
            · exact hInv u hmem
            · simp only [List.mem_singleton] at hmem
              subst hmem
              simp [pendingRow]
  · intro db uid pc emailOk hInv
    unfold approve
    split
    · exact hInv
    · cases emailOk
      · exact inv_setStatusPasscode db uid pc hInv
      · exact inv_setStatusPasscode db uid pc hInv
  · intro db uid cur new hInv hnodup
    unfold changePasscode
    split
    · exact hInv
    · split
      · exact hInv
      · rename_i u hu
        split
        · rename_i hcur
          intro v hv
          unfold setPasscode at hv
          obtain ⟨w, hw, rfl⟩ := List.mem_map.1 hv
          by_cases hid : w.id = uid
          · have hu_mem : u ∈ db := List.mem_of_find?_eq_some hu
            have hu_id : u.id = uid := by
              have := List.find?_some hu
              simpa using this
            have hwu : w = u :=
              List.inj_on_of_nodup_map hnodup hw hu_mem (by rw [hid, hu_id])
            have hstat : ¬ u.status = "pending" := by
              intro hp
              have hnull := (hInv u hu_mem).2 hp
              rw [hcur] at hnull
              exact Option.noConfusion hnull
            simp [hid, hwu, hu_id, hstat]
          · rw [if_neg (by simpa using hid)]
            exact hInv w hw
        · exact hInv

/-- Claim C8, witness: the invariant survives a concrete passcode change on
a store satisfying it. -/
theorem c8_witness : Inv (changePasscode [bobConfirmed] 2 "ABC123" "NEWPC1").2 :=
  secretHash_null_iff_pending.2.2.2 [bobConfirmed] 2 "ABC123" "NEWPC1"
    (by decide) (by decide)

/-! ## Claim C9 -/

/-- Claim C9, counterexample: the claim says two racing approves on the same
pending account yield exactly one success and one `NotFound`, with the
stored hash matching the winner; but in the interleaving where both SELECTs
run before either UPDATE, both calls on `janePending` report success, and
the stored passcode is the second caller's `"BBB222"` — the first caller's
returned `"AAA111"` matches nothing in the store. -/
theorem c9_counterexample :
    approveRace [janePending] 1 "AAA111" "BBB222" =
      (ApproveResult.ok "Registration confirmed and passcode sent via email",
       ApproveResult.ok "Registration confirmed and passcode sent via email",
       [{ janePending with status := "confirmed", passcode := some "BBB222" }]) := by
  decide

/-- Claim C9 (amended): because the handler is a SELECT followed by an
UPDATE whose WHERE clause tests only the id (not `status = 'pending'`), the
interleaving in which both SELECTs precede both UPDATEs makes both calls
succeed, and every row with the approved id ends up holding the second
caller's passcode. -/
theorem approveRace_both_succeed (db : Store) (uid : Nat) (pc₁ pc₂ : String)
    (u : User) (hu : findPendingById db uid = some u) :
    (approveRace db uid pc₁ pc₂).1 =
      ApproveResult.ok "Registration confirmed and passcode sent via email" ∧
    (approveRace db uid pc₁ pc₂).2.1 =
      ApproveResult.ok "Registration confirmed and passcode sent via email" ∧
    ∀ v ∈ (approveRace db uid pc₁ pc₂).2.2, v.id = uid → v.passcode = some pc₂ := by
  have hrace : approveRace db uid pc₁ pc₂ =
      (.ok "Registration confirmed and passcode sent via email",
       .ok "Registration confirmed and passcode sent via email",
       setStatusPasscode (setStatusPasscode db uid "confirmed" pc₁) uid "confirmed" pc₂) := by
    unfold approveRace
    rw [hu]
  refine ⟨by rw [hrace], by rw [hrace], ?_⟩
  rw [hrace]
  intro v hv hvid
  unfold setStatusPasscode at hv
  obtain ⟨w, hw, rfl⟩ := List.mem_map.1 hv
  by_cases hid : w.id = uid
  · simp [hid]
  · rw [if_neg (by simpa using hid)] at hvid
    exact absurd hvid hid

/-- Claim C9, witness: the first of the racing calls on the concrete pending
store reports success (as does the second, by the same theorem). -/
theorem c9_amended_witness :
    (approveRace [janePending] 1 "AAA111" "BBB222").1 =
      ApproveResult.ok "Registration confirmed and passcode sent via email" :=
  (approveRace_both_succeed [janePending] 1 "AAA111" "BBB222" janePending (by decide)).1

/-! ## Claim C10 -/

/-- Claim C10 (confirmed): `createTables` creates only the tables `users`,
`materials`, `events`, `news` and `achievements` — never `admins` — so the
`SELECT * FROM admins` of `POST /admin/login` always errors against the
schema and the handler can never answer success: every non-empty credential
pair lands in the 500 branch and empty fields in the 400 branch. -/
theorem adminLogin_never_succeeds :
    "admins" ∉ createdTables ∧
    ∀ admins bcryptOk username password uid uname,
      adminLogin createdTables admins bcryptOk username password ≠
        AdminLoginResult.success uid uname := by
  refine ⟨by decide, ?_⟩
  intro admins bcryptOk username password uid uname
  unfold adminLogin
  split
  · exact fun h => AdminLoginResult.noConfusion h
  · rw [if_neg (by decide : ¬ "admins" ∈ createdTables)]
    exact fun h => AdminLoginResult.noConfusion h

end InfoSys
